import Mathlib

/-!
# Verification of the marge-bot merge-job core

A shallow embedding of `src/marge/job.py` and the strategy-exclusion check of
`src/marge/app.py`, together with theorems settling the specification claims.

Modelling conventions:
* Git SHAs, branch names and error messages are `String`s; `GitError` is the
  error message string carried by the Python exception.
* External effects (the forge API, the git subprocess wrapper, the wall
  clock) are passed in as explicit data: results of fallible git calls are
  `Except GitError _` values supplied by an environment record, and the
  trailer-rewrite oracle is a function from the call's arguments to the SHA
  it produces.
* Wall-clock time in `wait_for_ci_to_pass` advances only by the 10-second
  sleeps between polls, so the number of loop iterations before the
  `ci_timeout` deadline is `ceil(ci_timeout / 10)`; the status observed at
  the i-th poll is given by a function `Nat → Option String` (`none` means
  no pipeline matched the expected commit).
* Logging calls have no observable effect and are omitted.
-/

/-- A git commit hash. -/
abbrev Sha := String

/-- The message of a `git.GitError` exception raised by the subprocess wrapper. -/
abbrev GitError := String

/-- The Python exception classes of `job.py`: `CannotMerge(Exception)` and its
subclass `SkipMerge(CannotMerge)`. -/
inductive ExcClass
  | cannotMerge
  | skipMerge
deriving DecidableEq, Repr

/-- The subclass relation of the two exception classes: `SkipMerge` derives
from `CannotMerge` (with an empty body), and every class is a subclass of
itself. -/
def ExcClass.is_subclass_of : ExcClass → ExcClass → Bool
  | _, .cannotMerge => true
  | .skipMerge, .skipMerge => true
  | .cannotMerge, .skipMerge => false

/-- A raised `CannotMerge` (or `SkipMerge`) exception value: its most-derived
class and its positional constructor arguments (`self.args`). -/
structure MergeExc where
  cls : ExcClass
  args : List String
deriving DecidableEq, Repr

/-- `isinstance(e, c)` for the two exception classes. -/
def isinstance (e : MergeExc) (c : ExcClass) : Bool :=
  e.cls.is_subclass_of c

/-- The `reason` property of `CannotMerge`: the first constructor argument,
or a fixed fallback string when the exception was raised with no arguments. -/
def MergeExc.reason (e : MergeExc) : String :=
  match e.args with
  | [] => "Unknown reason!"
  | a :: _ => a

/-- `CannotMerge(msg)` as raised throughout `job.py`. -/
def CannotMerge (msg : String) : MergeExc :=
  ⟨ExcClass.cannotMerge, [msg]⟩

/-- `SkipMerge(msg)` as raised throughout `job.py`. -/
def SkipMerge (msg : String) : MergeExc :=
  ⟨ExcClass.skipMerge, [msg]⟩

/-- The `MergeStrategy` enum of `job.py`. -/
inductive MergeStrategy
  | merge
  | rebase
  | rebase_then_merge
deriving DecidableEq, Repr

/-- The `value` of each `MergeStrategy` member (its enum string). -/
def MergeStrategy.value : MergeStrategy → String
  | .merge => "merge"
  | .rebase => "rebase"
  | .rebase_then_merge => "rebase_then_merge"

/-- The `MergeJobOptions` named tuple.  Durations are modelled in whole
seconds; the embargo calendar enters only through `during_merge_embargo()`,
i.e. through the truth value of `embargo.covers(utcnow())` at validation
time, recorded here as `embargo_covers_now`. -/
structure MergeJobOptions where
  add_tested : Bool
  add_part_of : Bool
  add_reviewers : Bool
  reapprove : Bool
  approval_timeout_secs : Nat
  embargo_covers_now : Bool
  ci_timeout_secs : Nat
  merge_strategy : MergeStrategy
  require_ci_run_by_me : Bool
  ci_timeout_skip : Bool
deriving DecidableEq, Repr

/-- `MergeJobOptions.requests_commit_tagging`. -/
def MergeJobOptions.requests_commit_tagging (o : MergeJobOptions) : Bool :=
  o.add_tested || o.add_part_of || o.add_reviewers

/-- The fields of a merge-request snapshot consumed by the merge job. -/
structure MergeRequestInfo where
  work_in_progress : Bool
  squash : Bool
  state : String
  assignee_ids : List Nat
  author_id : Nat
  source_project_id : Nat
  source_branch : String
  target_branch : String
  web_url : String
deriving DecidableEq, Repr

/-- An approvals snapshot (`merge_request.fetch_approvals()`); the two string
fields are the rendered forms substituted into the insufficient-approvals
message. -/
structure ApprovalsInfo where
  sufficient : Bool
  approver_usernames : String
  approvals_left : String
deriving DecidableEq, Repr

/-- The project fields consumed by the merge job. -/
structure ProjectInfo where
  only_allow_merge_if_pipeline_succeeds : Bool
deriving DecidableEq, Repr

/-- The message raised for insufficient approvals. -/
def insufficient_approvals_message (a : ApprovalsInfo) : String :=
  "Insufficient approvals (have: " ++ a.approver_usernames ++
    " missing: " ++ a.approvals_left ++ ")"

/-- `MergeJob.ensure_mergeable_mr`, applied to the freshly refetched MR
snapshot.  `user_id` is `self._user.id`.  Raising is modelled as returning
`.error`; falling through all checks returns `.ok ()`. -/
def ensure_mergeable_mr (opts : MergeJobOptions) (user_id : Nat)
    (mr : MergeRequestInfo) (approvals : ApprovalsInfo) : Except MergeExc Unit :=
  if mr.work_in_progress then
    .error (CannotMerge "Sorry, I can\x27t merge requests marked as Work-In-Progress!")
  else if mr.squash && opts.requests_commit_tagging then
    .error (CannotMerge
      "Sorry, merging requests marked as auto-squash would ruin my commit tagging!")
  else if !approvals.sufficient then
    .error (CannotMerge (insufficient_approvals_message approvals))
  else if !(["opened", "reopened", "locked"].contains mr.state) then
    if ["merged", "closed"].contains mr.state then
      .error (SkipMerge ("The merge request is already " ++ mr.state ++ "!"))
    else
      .error (CannotMerge ("The merge request is in an unknown state: " ++ mr.state))
  else if opts.embargo_covers_now then
    .error (SkipMerge "Merge embargo!")
  else if !(mr.assignee_ids.contains user_id) then
    .error (SkipMerge "It is not assigned to me anymore!")
  else
    .ok ()

/-- The rejection checks of the Validate step in the order the specification
lists them: each entry is a guard paired with the exception raised when the
guard is the first to hold.  The state classification is one listed step
with its two outcomes (`Skipped` for merged/closed, `Failed` for a state
outside the five known ones). -/
def validate_checks (opts : MergeJobOptions) (user_id : Nat)
    (mr : MergeRequestInfo) (approvals : ApprovalsInfo) : List (Bool × MergeExc) :=
  [ (mr.work_in_progress,
      CannotMerge "Sorry, I can\x27t merge requests marked as Work-In-Progress!"),
    (mr.squash && opts.requests_commit_tagging,
      CannotMerge "Sorry, merging requests marked as auto-squash would ruin my commit tagging!"),
    (!approvals.sufficient,
      CannotMerge (insufficient_approvals_message approvals)),
    (["merged", "closed"].contains mr.state,
      SkipMerge ("The merge request is already " ++ mr.state ++ "!")),
    (!(["opened", "reopened", "locked", "merged", "closed"].contains mr.state),
      CannotMerge ("The merge request is in an unknown state: " ++ mr.state)),
    (opts.embargo_covers_now,
      SkipMerge "Merge embargo!"),
    (!(mr.assignee_ids.contains user_id),
      SkipMerge "It is not assigned to me anymore!") ]

/-- First-match semantics over an ordered list of guarded rejections. -/
def first_failing : List (Bool × MergeExc) → Except MergeExc Unit
  | [] => .ok ()
  | (g, e) :: rest => if g then .error e else first_failing rest

/-- `MergeJob.rebase_then_merge`, as a function of the outcomes of the two
git calls it can make.  A bare `raise` inside the inner handler re-raises
the exception being handled there, i.e. the merge error. -/
def rebase_then_merge (rebase_result merge_result : Except GitError Sha) :
    Except GitError Sha :=
  match rebase_result with
  | .ok sha => .ok sha
  | .error _rebase_error =>
      match merge_result with
      | .ok sha => .ok sha
      | .error merge_error => .error merge_error

/-- One call to `repo.tag_with_trailer` with the arguments `add_trailers`
passes. -/
structure TagCall where
  trailer_name : String
  trailer_values : List String
  branch : String
  start_commit : String
deriving DecidableEq, Repr

/-- Python's `x or y` for an optional string `x`: `y` when `x` is `None` or
falsy (the empty string), else `x`. -/
def pyOrStr (x : Option String) (y : String) : String :=
  match x with
  | none => y
  | some s => if s = "" then y else s

/-- `MergeJob.add_trailers`.  `bot_name` is `self._user.name`; `reviewers`
is the list `_get_reviewer_names_and_emails` would return (an external
forge lookup); `tag` is the `repo.tag_with_trailer` oracle giving the new
tip SHA of each rewrite.  Returns the value of the local variable `sha`
(the last rewrite's result, `none` when no trailer was applied) together
with the list of `tag_with_trailer` calls made, in order. -/
def add_trailers (opts : MergeJobOptions) (proj : ProjectInfo)
    (mr : MergeRequestInfo) (bot_name : String) (reviewers : List String)
    (tag : TagCall → Sha) : Option Sha × List TagCall :=
  -- add Reviewed-by
  let step1 : Option Sha × List TagCall :=
    if opts.add_reviewers then
      let c : TagCall :=
        ⟨"Reviewed-by", reviewers, mr.source_branch, "origin/" ++ mr.target_branch⟩
      (some (tag c), [c])
    else (none, [])
  -- add Tested-by
  let should_add_tested := opts.add_tested && proj.only_allow_merge_if_pipeline_succeeds
  let step2 : Option Sha × List TagCall :=
    if should_add_tested && (opts.merge_strategy = MergeStrategy.rebase) then
      let c : TagCall :=
        ⟨"Tested-by", [bot_name ++ " <" ++ mr.web_url ++ ">"], mr.source_branch,
          mr.source_branch ++ "^"⟩
      (some (tag c), step1.2 ++ [c])
    else step1
  -- add Part-of
  if opts.add_part_of then
    let c : TagCall :=
      ⟨"Part-of", ["<" ++ mr.web_url ++ ">"], mr.source_branch,
        "origin/" ++ mr.target_branch⟩
    (some (tag c), step2.2 ++ [c])
  else step2

/-- The trailer names `add_trailers` applies, in source order, as determined
by the option toggles, the project's pipeline requirement and the merge
strategy. -/
def applicable_trailers (opts : MergeJobOptions) (proj : ProjectInfo) : List String :=
  (if opts.add_reviewers then ["Reviewed-by"] else []) ++
  (if opts.add_tested && proj.only_allow_merge_if_pipeline_succeeds &&
      (opts.merge_strategy = MergeStrategy.rebase) then ["Tested-by"] else []) ++
  (if opts.add_part_of then ["Part-of"] else [])

/-- Observable git working-copy operations performed by
`update_from_target_branch_and_push`, in order. -/
inductive Event
  | fuse (source target : String)
  | get_commit_hash (ref : String)
  | tag_with_trailer (c : TagCall)
  | push (branch : String) (force : Bool)
  | checkout_branch (name : String)
  | remove_branch (name : String)
deriving DecidableEq, Repr

/-- Whether an event is a trailer rewrite or a push. -/
def Event.is_tag_or_push : Event → Bool
  | .tag_with_trailer _ => true
  | .push _ _ => true
  | _ => false

/-- The outcome of one run of `update_from_target_branch_and_push`:
a normal return `(target_sha, updated_sha, rewritten_sha)`, a raised
`CannotMerge`/`SkipMerge`, or a propagated `GitError`. -/
inductive UpdateOutcome
  | success (target_sha updated_sha rewritten_sha : Sha)
  | exc (e : MergeExc)
  | git_error (e : GitError)
deriving DecidableEq, Repr

/-- The external world of one `update_from_target_branch_and_push` run: the
outcome of the fuse, the SHA of `origin/<target>` read after the fuse, the
data feeding `add_trailers`, the outcome of the force-push, and whether
`Branch.fetch_by_name(source_project_id, source_branch).protected` would
report the source branch protected.  `tag_with_trailer` and
`get_commit_hash` are modelled as total (the claims under verification only
exercise failures of the fuse and of the push). -/
structure UpdateEnv where
  fuse_result : Except GitError Sha
  origin_target_sha : Sha
  bot_name : String
  reviewers : List String
  tag : TagCall → Sha
  push_result : Except GitError Unit
  source_branch_protected : Bool

/-- The body of the `try` block of `update_from_target_branch_and_push`
together with its `except git.GitError` handler, without the `finally`
cleanup: returns the outcome and the events of the git calls attempted.
The flags `branch_updated` / `branch_rewritten` / `changes_pushed` of the
source appear here as the position in the control flow: a fuse error is
handled with none of them set, a push error with `branch_updated` set, and
`branch_rewritten = (rewritten_sha != updated_sha)`.  The final re-`raise`
of the handler is unreachable (no `GitError` can arise after the push
succeeds, the last fallible call of the block). -/
def update_core (opts : MergeJobOptions) (proj : ProjectInfo)
    (mr : MergeRequestInfo) (env : UpdateEnv) : UpdateOutcome × List Event :=
  let source_branch := mr.source_branch
  let target_branch := mr.target_branch
  match env.fuse_result with
  | .error _ =>
      (.exc (CannotMerge "got conflicts while rebasing, your problem now..."),
        [.fuse source_branch target_branch])
  | .ok updated_sha =>
      let target_sha := env.origin_target_sha
      let evts0 : List Event :=
        [.fuse source_branch target_branch, .get_commit_hash ("origin/" ++ target_branch)]
      if updated_sha = target_sha then
        (.exc (CannotMerge
            ("these changes already exist in branch \x60" ++ target_branch ++ "\x60")),
          evts0)
      else
        let tr := add_trailers opts proj mr env.bot_name env.reviewers env.tag
        let rewritten_sha := pyOrStr tr.1 updated_sha
        let evts := evts0 ++ tr.2.map Event.tag_with_trailer ++ [.push source_branch true]
        match env.push_result with
        | .ok _ => (.success target_sha updated_sha rewritten_sha, evts)
        | .error exc =>
            if rewritten_sha = updated_sha then
              (.exc (CannotMerge
                  ("expected commit id to change on merge, but we have rewritten=" ++
                    rewritten_sha ++ " updated=" ++ updated_sha ++
                    ". Or it could be the GitError: " ++ exc)),
                evts)
            else if env.source_branch_protected then
              (.exc (CannotMerge
                  "Sorry, I can\x27t push rewritten changes to protected branches!"),
                evts)
            else
              (.exc (CannotMerge
                  ("failed to push with strategy " ++ opts.merge_strategy.value ++
                    ", check my logs!")),
                evts)

/-- `MergeJob.update_from_target_branch_and_push`.  The coincide check sits
before the `try`/`finally`, so its `CannotMerge` propagates without any
cleanup; every path through the `try` block appends the `finally` cleanup
(check out `master`, remove the local source branch) unless the source
branch is `master` itself.  The cleanup git calls are modelled as
succeeding, and `repo.remote_url` (the assert before the coincide check) is
not represented. -/
def update_from_target_branch_and_push (opts : MergeJobOptions)
    (proj : ProjectInfo) (mr : MergeRequestInfo) (source_repo_url : Option String)
    (env : UpdateEnv) : UpdateOutcome × List Event :=
  if source_repo_url = none ∧ mr.source_branch = mr.target_branch then
    (.exc (CannotMerge "source and target branch seem to coincide!"), [])
  else
    let r := update_core opts proj mr env
    let cleanup : List Event :=
      if mr.source_branch ≠ "master" then
        [.checkout_branch "master", .remove_branch mr.source_branch]
      else []
    (r.1, r.2 ++ cleanup)

/-- The fixed sleep between CI polls (`waiting_time_in_secs` in
`wait_for_ci_to_pass`), in seconds. -/
def waiting_time_in_secs : Nat := 10

/-- The number of polls one `wait_for_ci_to_pass` entry performs before the
deadline: the loop runs while `elapsed < ci_timeout` and each iteration
advances the clock by one sleep, so the k-th poll happens at elapsed time
`10 * k` and the poll count is `ceil(ci_timeout / 10)`. -/
def num_polls (ci_timeout_secs : Nat) : Nat :=
  (ci_timeout_secs + waiting_time_in_secs - 1) / waiting_time_in_secs

/-- A polled CI status resolves the wait (the loop returns or raises on it):
success, skipped, failed or canceled. -/
def ci_status_resolves (s : Option String) : Prop :=
  s = some "success" ∨ s = some "skipped" ∨ s = some "failed" ∨ s = some "canceled"

instance : DecidablePred ci_status_resolves := fun s => by
  unfold ci_status_resolves; infer_instance

/-- The polling loop of `wait_for_ci_to_pass`: `status i` is the CI status
`get_mr_ci_status` observes at the i-th poll (`none` when no pipeline
matches the commit), `fuel` the number of polls left before the deadline
and `starts` the number of `Pipeline.start` calls made so far.  Statuses
outside the handled ones only log a warning and keep polling.  Returns the
outcome together with the total number of `Pipeline.start` calls. -/
def wait_loop (status : Nat → Option String) (ci_run_by_me skip_flag : Bool) :
    Nat → Nat → Nat → Except MergeExc Unit × Nat
  | 0, _, starts =>
      (.error (if skip_flag then SkipMerge "CI is taking too long."
        else CannotMerge "CI is taking too long."), starts)
  | fuel + 1, i, starts =>
      let ci_status := status i
      if ci_status = some "success" then (.ok (), starts)
      else if ci_status = some "skipped" then (.ok (), starts)
      else if ci_status = some "failed" then (.error (CannotMerge "CI failed!"), starts)
      else if ci_status = some "canceled" then
        (.error (CannotMerge "Someone canceled the CI."), starts)
      else
        let starts2 := if ci_status = none ∧ ci_run_by_me = true then starts + 1 else starts
        wait_loop status ci_run_by_me skip_flag fuel (i + 1) starts2

/-- `MergeJob.wait_for_ci_to_pass` for one AwaitCI entry: polls until a
status resolves or the `ci_timeout` deadline passes. -/
def wait_for_ci_to_pass (opts : MergeJobOptions) (status : Nat → Option String) :
    Except MergeExc Unit × Nat :=
  wait_loop status opts.require_ci_run_by_me opts.ci_timeout_skip
    (num_polls opts.ci_timeout_secs) 0 0

/-- The configuration fields of `app.py` involved in the merge-strategy
exclusion check at the end of `_parse_config`. -/
structure AppConfig where
  use_merge_strategy : Bool
  merge_strategy : MergeStrategy
  batch : Bool
  add_tested : Bool
deriving DecidableEq, Repr

/-- The strategy normalisation and exclusion check of `_parse_config`
(`app.py`, after `parser.parse_args`): `--use-merge-strategy` forces the
strategy to `merge`, and strategy `merge` is rejected with a
`MargeBotCliArgError` when combined with `--batch` or `--add-tested`.
Returns the (possibly updated) configuration on success and the error
message on rejection. -/
def check_merge_strategy (cfg : AppConfig) : Except String AppConfig :=
  let cfg2 := if cfg.use_merge_strategy then { cfg with merge_strategy := MergeStrategy.merge } else cfg
  if cfg2.merge_strategy = MergeStrategy.merge then
    if cfg2.batch then
      .error "--merge-strategy=merge and --batch are currently mutually exclusive"
    else if cfg2.add_tested then
      .error "--merge-strategy=merge and --add-tested are currently mutually exclusive"
    else .ok cfg2
  else .ok cfg2

/-- The merge strategy in force after `_parse_config` normalises
`--use-merge-strategy`. -/
def effective_merge_strategy (cfg : AppConfig) : MergeStrategy :=
  if cfg.use_merge_strategy then MergeStrategy.merge else cfg.merge_strategy

/-! ## Claim theorems -/

/-- Claim C1 (corrected).  Once the rebase has raised a `GitError`, the
rebase error is swallowed unconditionally: `rebase_then_merge` returns
whatever the merge attempt produces, so when the merge also raises a
`GitError` the error surfaced to the caller is the merge error, not the
original rebase error. -/
theorem rebase_then_merge_rebase_error_swallowed (rebase_error : GitError)
    (merge_result : Except GitError Sha) :
    rebase_then_merge (Except.error rebase_error) merge_result = merge_result := by
  cases merge_result <;> rfl

/-- Counterexample to claim C1 as stated: with distinct rebase and merge
errors, the surfaced error is the merge error, not the rebase error. -/
theorem rebase_then_merge_both_fail_cex :
    rebase_then_merge (Except.error "rebase: conflict in job.py")
        (Except.error "merge: conflict in job.py") =
      Except.error "merge: conflict in job.py" ∧
    "merge: conflict in job.py" ≠ "rebase: conflict in job.py" :=
  ⟨rfl, by decide⟩

/-- Claim C9.  `_parse_config` rejects the effective strategy `merge`
(whether selected by `--merge-strategy=merge` or forced by
`--use-merge-strategy`) exactly when it is combined with `--batch` or with
`--add-tested`; every other combination passes this check. -/
theorem merge_strategy_exclusions_iff (cfg : AppConfig) :
    (∃ msg, check_merge_strategy cfg = Except.error msg) ↔
      (effective_merge_strategy cfg = MergeStrategy.merge ∧
        (cfg.batch = true ∨ cfg.add_tested = true)) := by
  rcases cfg with ⟨u, s, b, t⟩
  cases u <;> cases b <;> cases t <;> cases s <;>
    simp [check_merge_strategy, effective_merge_strategy]

/-- Claim C10.  `SkipMerge` is a subclass of `CannotMerge`, every exception
value of either class is an instance of `CannotMerge`, and the `reason`
property returns the first constructor argument when one was given and the
string "Unknown reason!" when the exception was constructed with no
arguments. -/
theorem skip_merge_subclass_and_reason :
    ExcClass.is_subclass_of ExcClass.skipMerge ExcClass.cannotMerge = true ∧
    (∀ e : MergeExc, isinstance e ExcClass.cannotMerge = true) ∧
    (∀ (k : ExcClass) (a : String) (rest : List String),
        MergeExc.reason ⟨k, a :: rest⟩ = a) ∧
    (∀ k : ExcClass, MergeExc.reason ⟨k, []⟩ = "Unknown reason!") := by
  refine ⟨rfl, ?_, ?_, ?_⟩
  · intro e
    rcases e with ⟨c, a⟩
    cases c <;> rfl
  · intro k a rest
    rfl
  · intro k
    rfl

/-- In a run where no pipeline ever matches the expected commit, the final
`Pipeline.start` count equals the initial count plus one per remaining
poll when `require_ci_run_by_me` is set, and stays unchanged otherwise. -/
theorem wait_loop_absent_start_count (b skipf : Bool) :
    ∀ fuel i starts : Nat,
      (wait_loop (fun _ => none) b skipf fuel i starts).2 =
        starts + (if b then fuel else 0) := by
  intro fuel
  induction fuel with
  | zero =>
      intro i starts
      cases b <;> simp [wait_loop]
  | succ n ih =>
      intro i starts
      have step : wait_loop (fun _ => none) b skipf (n + 1) i starts =
          wait_loop (fun _ => none) b skipf n (i + 1)
            (if b then starts + 1 else starts) := by
        simp [wait_loop]
      rw [step, ih]
      cases b <;> simp <;> omega

/-- Claim C3 (corrected).  When the matching pipeline stays absent at every
poll, one `wait_for_ci_to_pass` entry with `require_ci_run_by_me` set
invokes `Pipeline.start` once per poll — `num_polls ci_timeout` times in
total, not at most once; with the option unset it never starts a
pipeline. -/
theorem pipeline_start_count_when_absent (opts : MergeJobOptions) :
    (wait_for_ci_to_pass opts (fun _ => none)).2 =
      if opts.require_ci_run_by_me then num_polls opts.ci_timeout_secs else 0 := by
  unfold wait_for_ci_to_pass
  rw [wait_loop_absent_start_count]
  simp

/-- Counterexample to claim C3 as stated: with a 30-second `ci_timeout`
(three polls) and the pipeline absent throughout, `Pipeline.start` is
invoked three times in a single AwaitCI entry. -/
theorem pipeline_start_multiple_cex :
    (wait_for_ci_to_pass
        { add_tested := false, add_part_of := false, add_reviewers := false,
          reapprove := false, approval_timeout_secs := 0, embargo_covers_now := false,
          ci_timeout_secs := 30, merge_strategy := MergeStrategy.rebase,
          require_ci_run_by_me := true, ci_timeout_skip := false }
        (fun _ => none)).2 = 3 ∧
    ¬((wait_for_ci_to_pass
        { add_tested := false, add_part_of := false, add_reviewers := false,
          reapprove := false, approval_timeout_secs := 0, embargo_covers_now := false,
          ci_timeout_secs := 30, merge_strategy := MergeStrategy.rebase,
          require_ci_run_by_me := true, ci_timeout_skip := false }
        (fun _ => none)).2 ≤ 1) := by
  constructor
  · rfl
  · decide

/-- Membership in the union of the five known states splits into membership
in the allowed states and membership in the terminal states. -/
theorem contains_union_states (s : String) :
    (["opened", "reopened", "locked", "merged", "closed"].contains s) =
      (["opened", "reopened", "locked"].contains s ||
        ["merged", "closed"].contains s) := by
  simp [List.contains_cons, Bool.or_assoc]

/-- No state is both an allowed state and a terminal (merged/closed) state. -/
theorem state_lists_disjoint (s : String) :
    ¬(["opened", "reopened", "locked"].contains s = true ∧
      ["merged", "closed"].contains s = true) := by
  rintro ⟨h1, h2⟩
  simp only [List.contains_cons, List.contains_nil, Bool.or_false, Bool.or_eq_true,
    beq_iff_eq] at h1 h2
  rcases h1 with rfl | rfl | rfl <;> rcases h2 with h | h <;> exact absurd h (by decide)

/-- Claim C5.  `ensure_mergeable_mr` equals first-match evaluation of the
rejection checks in the order the specification lists them: work in
progress, squash with commit tagging, insufficient approvals, state
classification, embargo, unassignment — so the first condition that holds
determines the outcome. -/
theorem ensure_mergeable_mr_check_order (opts : MergeJobOptions) (user_id : Nat)
    (mr : MergeRequestInfo) (approvals : ApprovalsInfo) :
    ensure_mergeable_mr opts user_id mr approvals =
      first_failing (validate_checks opts user_id mr approvals) := by
  have hdisj := state_lists_disjoint mr.state
  simp only [ensure_mergeable_mr, validate_checks, first_failing, contains_union_states]
  cases hA : ["opened", "reopened", "locked"].contains mr.state <;>
    cases hB : ["merged", "closed"].contains mr.state <;>
    simp [hA, hB]
  exact absurd ⟨hA, hB⟩ hdisj

/-- If none of the statuses observed during the remaining polls resolves the
wait, the loop runs out its deadline and reports that CI is taking too
long, as `SkipMerge` or `CannotMerge` according to `ci_timeout_skip`. -/
theorem wait_loop_timeout (status : Nat → Option String) (b skipf : Bool) :
    ∀ fuel i starts : Nat,
      (∀ j, j < fuel → ¬ci_status_resolves (status (i + j))) →
      (wait_loop status b skipf fuel i starts).1 =
        Except.error (if skipf then SkipMerge "CI is taking too long."
          else CannotMerge "CI is taking too long.") := by
  intro fuel
  induction fuel with
  | zero =>
      intro i starts _
      rfl
  | succ n ih =>
      intro i starts h
      have h0 : ¬ci_status_resolves (status i) := by
        simpa using h 0 (Nat.succ_pos n)
      simp only [ci_status_resolves, not_or] at h0
      obtain ⟨hs, hk, hf, hc⟩ := h0
      simp only [wait_loop, if_neg hs, if_neg hk, if_neg hf, if_neg hc]
      apply ih
      intro j hj
      have := h (j + 1) (Nat.succ_lt_succ hj)
      have harith : i + (j + 1) = i + 1 + j := by omega
      rwa [harith] at this

/-- Claim C7.  `wait_for_ci_to_pass` sleeps a fixed 10 seconds between
polls; when no status polled before the `ci_timeout` deadline resolves the
wait, it raises `SkipMerge("CI is taking too long.")` if `ci_timeout_skip`
is set and `CannotMerge("CI is taking too long.")` otherwise. -/
theorem wait_for_ci_timeout_outcome (opts : MergeJobOptions)
    (status : Nat → Option String)
    (h : ∀ j, j < num_polls opts.ci_timeout_secs → ¬ci_status_resolves (status j)) :
    (wait_for_ci_to_pass opts status).1 =
      Except.error (if opts.ci_timeout_skip then SkipMerge "CI is taking too long."
        else CannotMerge "CI is taking too long.") ∧
    waiting_time_in_secs = 10 := by
  refine ⟨?_, rfl⟩
  unfold wait_for_ci_to_pass
  apply wait_loop_timeout
  intro j hj
  simpa using h j hj

/-- Witness for claim C7: a 25-second `ci_timeout` allows three polls; with
the pipeline stuck on "running" and `ci_timeout_skip` set, the entry ends
in `SkipMerge("CI is taking too long.")`. -/
theorem wait_for_ci_timeout_outcome_witness :
    (∀ j, j < num_polls (25 : Nat) → ¬ci_status_resolves ((fun _ => some "running") j)) ∧
    ((wait_for_ci_to_pass
        { add_tested := false, add_part_of := false, add_reviewers := false,
          reapprove := false, approval_timeout_secs := 0, embargo_covers_now := false,
          ci_timeout_secs := 25, merge_strategy := MergeStrategy.rebase,
          require_ci_run_by_me := false, ci_timeout_skip := true }
        (fun _ => some "running")).1 =
      Except.error (if true then SkipMerge "CI is taking too long."
        else CannotMerge "CI is taking too long.") ∧
      waiting_time_in_secs = 10) :=
  ⟨by decide,
    wait_for_ci_timeout_outcome
      { add_tested := false, add_part_of := false, add_reviewers := false,
        reapprove := false, approval_timeout_secs := 0, embargo_covers_now := false,
        ci_timeout_secs := 25, merge_strategy := MergeStrategy.rebase,
        require_ci_run_by_me := false, ci_timeout_skip := true }
      (fun _ => some "running") (by decide)⟩

/-- Claim C4.  Provided the rewrite oracle never returns the falsy empty
string (real git SHAs are non-empty hex strings), one `add_trailers` run
applies exactly the applicable trailers in the order Reviewed-by,
Tested-by, Part-of; the rewritten SHA computed as
`add_trailers(...) or updated_sha` equals the updated SHA when no trailer
applies, and the SHA produced by the last applied trailer otherwise. -/
theorem add_trailers_order_and_last_sha (opts : MergeJobOptions)
    (proj : ProjectInfo) (mr : MergeRequestInfo) (bot_name : String)
    (reviewers : List String) (tag : TagCall → Sha) (updated_sha : Sha)
    (hne : ∀ c : TagCall, tag c ≠ "") :
    ((add_trailers opts proj mr bot_name reviewers tag).2.map TagCall.trailer_name =
        applicable_trailers opts proj) ∧
    ((add_trailers opts proj mr bot_name reviewers tag).2 = [] →
        pyOrStr (add_trailers opts proj mr bot_name reviewers tag).1 updated_sha =
          updated_sha) ∧
    (∀ c, (add_trailers opts proj mr bot_name reviewers tag).2.getLast? = some c →
        pyOrStr (add_trailers opts proj mr bot_name reviewers tag).1 updated_sha =
          tag c) := by
  unfold add_trailers applicable_trailers
  by_cases h1 : opts.add_reviewers = true <;>
    by_cases h2 : (opts.add_tested && proj.only_allow_merge_if_pipeline_succeeds &&
      decide (opts.merge_strategy = MergeStrategy.rebase)) = true <;>
    by_cases h3 : opts.add_part_of = true <;>
    simp [h1, h2, h3, Bool.and_assoc, pyOrStr, hne, List.getLast?]

/-- A merge-request snapshot used by the concrete witnesses below. -/
def w_mr : MergeRequestInfo :=
  { work_in_progress := false, squash := false, state := "opened",
    assignee_ids := [7], author_id := 9, source_project_id := 3,
    source_branch := "feature", target_branch := "main", web_url := "http://mr/42" }

/-- Job options with all three trailer toggles on and the rebase strategy. -/
def w_opts_all_trailers : MergeJobOptions :=
  { add_tested := true, add_part_of := true, add_reviewers := true,
    reapprove := false, approval_timeout_secs := 0, embargo_covers_now := false,
    ci_timeout_secs := 900, merge_strategy := MergeStrategy.rebase,
    require_ci_run_by_me := false, ci_timeout_skip := false }

/-- Witness for claim C4: with all three trailers applicable, the calls are
Reviewed-by, Tested-by, Part-of in order and the rewritten SHA is the last
call's result. -/
theorem add_trailers_order_and_last_sha_witness :
    (∀ c : TagCall, (fun _ : TagCall => "cafebabe") c ≠ "") ∧
    (((add_trailers w_opts_all_trailers ⟨true⟩ w_mr "Marge Bot"
          ["A. Prover <a@example.com>"] (fun _ => "cafebabe")).2.map
            TagCall.trailer_name =
        applicable_trailers w_opts_all_trailers ⟨true⟩) ∧
      ((add_trailers w_opts_all_trailers ⟨true⟩ w_mr "Marge Bot"
          ["A. Prover <a@example.com>"] (fun _ => "cafebabe")).2 = [] →
        pyOrStr (add_trailers w_opts_all_trailers ⟨true⟩ w_mr "Marge Bot"
          ["A. Prover <a@example.com>"] (fun _ => "cafebabe")).1 "upd" = "upd") ∧
      (∀ c, (add_trailers w_opts_all_trailers ⟨true⟩ w_mr "Marge Bot"
          ["A. Prover <a@example.com>"] (fun _ => "cafebabe")).2.getLast? = some c →
        pyOrStr (add_trailers w_opts_all_trailers ⟨true⟩ w_mr "Marge Bot"
          ["A. Prover <a@example.com>"] (fun _ => "cafebabe")).1 "upd" =
          (fun _ : TagCall => "cafebabe") c)) :=
  ⟨fun _ => by show "cafebabe" ≠ ""; decide,
    add_trailers_order_and_last_sha w_opts_all_trailers ⟨true⟩ w_mr "Marge Bot"
      ["A. Prover <a@example.com>"] (fun _ => "cafebabe") "upd"
      (fun _ => by show "cafebabe" ≠ ""; decide)⟩

/-- Claim C2 (corrected).  When the fuse produced a fresh SHA, the trailer
rewrite changed the tip, and the force-push raised a `GitError`: a
protected source branch yields the protected-branch `CannotMerge`, and
otherwise the failure names the configured merge strategy (with the
", check my logs!" suffix of the source). -/
theorem push_fail_rewritten_error_messages (opts : MergeJobOptions)
    (proj : ProjectInfo) (mr : MergeRequestInfo) (url : Option String)
    (env : UpdateEnv) (u : Sha) (e : GitError)
    (h0 : ¬(url = none ∧ mr.source_branch = mr.target_branch))
    (h1 : env.fuse_result = Except.ok u)
    (h2 : u ≠ env.origin_target_sha)
    (h3 : env.push_result = Except.error e)
    (h4 : pyOrStr (add_trailers opts proj mr env.bot_name env.reviewers env.tag).1 u ≠ u) :
    (update_from_target_branch_and_push opts proj mr url env).1 =
      UpdateOutcome.exc (CannotMerge (if env.source_branch_protected then
          "Sorry, I can\x27t push rewritten changes to protected branches!"
        else
          "failed to push with strategy " ++ opts.merge_strategy.value ++
            ", check my logs!")) := by
  unfold update_from_target_branch_and_push update_core
  rw [if_neg h0, h1]
  simp only [if_neg h2, h3]
  rw [if_neg h4]
  cases hp : env.source_branch_protected <;> simp [hp]

/-- Job options with only `add_part_of` on (one applicable trailer). -/
def w_opts_part_of : MergeJobOptions :=
  { add_tested := false, add_part_of := true, add_reviewers := false,
    reapprove := false, approval_timeout_secs := 0, embargo_covers_now := false,
    ci_timeout_secs := 900, merge_strategy := MergeStrategy.rebase,
    require_ci_run_by_me := false, ci_timeout_skip := false }

/-- An environment where the fuse yields a fresh SHA, the rewrite oracle
moves the tip, the force-push is rejected, and the source branch is
protected. -/
def w_env_push_denied : UpdateEnv :=
  { fuse_result := Except.ok "upd", origin_target_sha := "tgt",
    bot_name := "Marge Bot", reviewers := [], tag := fun _ => "cafebabe",
    push_result := Except.error "denied", source_branch_protected := true }

/-- Witness for claim C2 (corrected): fuse fresh, tip rewritten, push denied
on a protected source branch gives the protected-branch rejection. -/
theorem push_fail_rewritten_error_messages_witness :
    (¬((some "ssh://git@example.com/fork.git" : Option String) = none ∧
        w_mr.source_branch = w_mr.target_branch)) ∧
    w_env_push_denied.fuse_result = Except.ok "upd" ∧
    ("upd" : Sha) ≠ w_env_push_denied.origin_target_sha ∧
    w_env_push_denied.push_result = Except.error "denied" ∧
    pyOrStr (add_trailers w_opts_part_of ⟨true⟩ w_mr w_env_push_denied.bot_name
        w_env_push_denied.reviewers w_env_push_denied.tag).1 "upd" ≠ "upd" ∧
    (update_from_target_branch_and_push w_opts_part_of ⟨true⟩ w_mr
        (some "ssh://git@example.com/fork.git") w_env_push_denied).1 =
      UpdateOutcome.exc (CannotMerge (if w_env_push_denied.source_branch_protected then
          "Sorry, I can\x27t push rewritten changes to protected branches!"
        else
          "failed to push with strategy " ++ w_opts_part_of.merge_strategy.value ++
            ", check my logs!")) :=
  ⟨by decide, rfl, by decide, rfl, by decide,
    push_fail_rewritten_error_messages w_opts_part_of ⟨true⟩ w_mr
      (some "ssh://git@example.com/fork.git") w_env_push_denied "upd" "denied"
      (by decide) rfl (by decide) rfl (by decide)⟩

/-- Job options with no trailer toggle on. -/
def w_opts_no_trailers : MergeJobOptions :=
  { add_tested := false, add_part_of := false, add_reviewers := false,
    reapprove := false, approval_timeout_secs := 0, embargo_covers_now := false,
    ci_timeout_secs := 900, merge_strategy := MergeStrategy.rebase,
    require_ci_run_by_me := false, ci_timeout_skip := false }

/-- An environment like `w_env_push_denied` but with the source branch not
protected. -/
def w_env_push_denied_unprotected : UpdateEnv :=
  { fuse_result := Except.ok "upd", origin_target_sha := "tgt",
    bot_name := "Marge Bot", reviewers := [], tag := fun _ => "cafebabe",
    push_result := Except.error "denied", source_branch_protected := false }

/-- Counterexample to claim C2 as stated: with no trailer applicable the
rewrite succeeds without changing the tip, and a failing push on an
unprotected source branch is reported as the "expected commit id to
change" `CannotMerge`, not as "failed to push with strategy <s>". -/
theorem push_fail_unrewritten_cex :
    (update_from_target_branch_and_push w_opts_no_trailers ⟨true⟩ w_mr
        (some "ssh://git@example.com/fork.git") w_env_push_denied_unprotected).1 =
      UpdateOutcome.exc (CannotMerge
        ("expected commit id to change on merge, but we have rewritten=upd" ++
          " updated=upd. Or it could be the GitError: denied")) ∧
    (update_from_target_branch_and_push w_opts_no_trailers ⟨true⟩ w_mr
        (some "ssh://git@example.com/fork.git") w_env_push_denied_unprotected).1 ≠
      UpdateOutcome.exc (CannotMerge "failed to push with strategy rebase") ∧
    (update_from_target_branch_and_push w_opts_no_trailers ⟨true⟩ w_mr
        (some "ssh://git@example.com/fork.git") w_env_push_denied_unprotected).1 ≠
      UpdateOutcome.exc (CannotMerge "failed to push with strategy rebase, check my logs!") ∧
    (update_from_target_branch_and_push w_opts_no_trailers ⟨true⟩ w_mr
        (some "ssh://git@example.com/fork.git") w_env_push_denied_unprotected).1 ≠
      UpdateOutcome.exc (CannotMerge
        "Sorry, I can\x27t push rewritten changes to protected branches!") := by
  refine ⟨rfl, by decide, by decide, by decide⟩

/-- Claim C6.  When the fuse succeeds but leaves the source tip equal to
`origin/<target>`, the run rejects with the "these changes already exist"
`CannotMerge`, and no trailer rewrite and no push is attempted. -/
theorem update_already_exists_rejects_before_rewrite (opts : MergeJobOptions)
    (proj : ProjectInfo) (mr : MergeRequestInfo) (url : Option String)
    (env : UpdateEnv)
    (h0 : ¬(url = none ∧ mr.source_branch = mr.target_branch))
    (h1 : env.fuse_result = Except.ok env.origin_target_sha) :
    (update_from_target_branch_and_push opts proj mr url env).1 =
      UpdateOutcome.exc (CannotMerge
        ("these changes already exist in branch \x60" ++ mr.target_branch ++ "\x60")) ∧
    (update_from_target_branch_and_push opts proj mr url env).2.filter
      Event.is_tag_or_push = [] := by
  unfold update_from_target_branch_and_push update_core
  rw [if_neg h0, h1]
  by_cases hm : mr.source_branch = "master" <;>
    simp [hm, Event.is_tag_or_push, List.filter]

/-- An environment where the fuse reproduces the target tip exactly. -/
def w_env_no_change : UpdateEnv :=
  { fuse_result := Except.ok "tgt", origin_target_sha := "tgt",
    bot_name := "Marge Bot", reviewers := [], tag := fun _ => "cafebabe",
    push_result := Except.ok (), source_branch_protected := false }

/-- Witness for claim C6 at a concrete no-change fuse. -/
theorem update_already_exists_rejects_before_rewrite_witness :
    (¬((some "ssh://git@example.com/fork.git" : Option String) = none ∧
        w_mr.source_branch = w_mr.target_branch)) ∧
    w_env_no_change.fuse_result = Except.ok w_env_no_change.origin_target_sha ∧
    ((update_from_target_branch_and_push w_opts_all_trailers ⟨true⟩ w_mr
        (some "ssh://git@example.com/fork.git") w_env_no_change).1 =
      UpdateOutcome.exc (CannotMerge
        ("these changes already exist in branch \x60" ++ w_mr.target_branch ++ "\x60")) ∧
    (update_from_target_branch_and_push w_opts_all_trailers ⟨true⟩ w_mr
        (some "ssh://git@example.com/fork.git") w_env_no_change).2.filter
      Event.is_tag_or_push = []) :=
  ⟨by decide, rfl,
    update_already_exists_rejects_before_rewrite w_opts_all_trailers ⟨true⟩ w_mr
      (some "ssh://git@example.com/fork.git") w_env_no_change (by decide) rfl⟩

/-- Claim C8 (corrected).  On every run that gets past the initial
coincide check — i.e. on every run that attempts the fuse — either the
source branch is `master`, or the event trace ends by checking out
`master` and removing the local source branch, on success and on every
raised error alike. -/
theorem update_cleanup_after_fuse_phase (opts : MergeJobOptions)
    (proj : ProjectInfo) (mr : MergeRequestInfo) (url : Option String)
    (env : UpdateEnv)
    (h0 : ¬(url = none ∧ mr.source_branch = mr.target_branch)) :
    mr.source_branch = "master" ∨
      ∃ pre, (update_from_target_branch_and_push opts proj mr url env).2 =
        pre ++ [Event.checkout_branch "master", Event.remove_branch mr.source_branch] := by
  unfold update_from_target_branch_and_push
  rw [if_neg h0]
  by_cases hm : mr.source_branch = "master"
  · exact Or.inl hm
  · right
    exact ⟨(update_core opts proj mr env).2, by simp [hm]⟩

/-- Witness for claim C8 (corrected) on a concrete push-denied run. -/
theorem update_cleanup_after_fuse_phase_witness :
    (¬((some "ssh://git@example.com/fork.git" : Option String) = none ∧
        w_mr.source_branch = w_mr.target_branch)) ∧
    (w_mr.source_branch = "master" ∨
      ∃ pre, (update_from_target_branch_and_push w_opts_no_trailers ⟨true⟩ w_mr
          (some "ssh://git@example.com/fork.git") w_env_push_denied_unprotected).2 =
        pre ++ [Event.checkout_branch "master", Event.remove_branch w_mr.source_branch]) :=
  ⟨by decide,
    update_cleanup_after_fuse_phase w_opts_no_trailers ⟨true⟩ w_mr
      (some "ssh://git@example.com/fork.git") w_env_push_denied_unprotected (by decide)⟩

/-- A merge request whose source and target branch coincide (and differ
from `master`). -/
def w_mr_coincide : MergeRequestInfo :=
  { w_mr with source_branch := "featurex", target_branch := "featurex" }

/-- Counterexample to claim C8 as stated: the coincide `CannotMerge` is
raised before the `try`/`finally`, so the run ends with no git call at
all — in particular without checking out `master` or removing the local
source branch, which is not `master`. -/
theorem update_cleanup_skipped_cex :
    update_from_target_branch_and_push w_opts_no_trailers ⟨true⟩ w_mr_coincide
        none w_env_push_denied_unprotected =
      (UpdateOutcome.exc (CannotMerge "source and target branch seem to coincide!"),
        ([] : List Event)) ∧
    w_mr_coincide.source_branch ≠ "master" :=
  ⟨rfl, by decide⟩
